import Mathlib

/-!
Shallow embedding of the `ruma-client` crate core (src/lib.rs, src/error.rs):
the request-dispatch pipeline (`Client::request`), the session convenience
operations (`Client::log_in`, `Client::register_guest`, `Client::register_user`)
and the sync polling state machine (`Client::sync`).

Machine-level collaborators are modelled abstractly:
  * the transport (`http_client.call`) is a function from wire requests to
    `Except Error WireResponse`; the wire request actually handed to it is
    recorded in the dispatch result so that non-invocation is observable;
  * endpoint descriptors (the `Endpoint` trait of ruma_api) carry the
    `requires_authentication` flag and the two conversions;
  * `url::Url` is modelled structurally (scheme/host/port/path/query), with
    the query as a list of key-value pairs (the view exposed by
    `query_pairs_mut`); `Uri::from_str(url.as_ref())` on a URL serialized by
    the url crate is modelled as the identity on this structural view.
-/

namespace RumaClient

/-- Modelled from the spec: `mod session` (src/session.rs) is not under src/.
Spec section 3 fixes the shape: `{access_token: string, device_id: string,
user_id: string}`, immutable once issued. -/
structure Session where
  access_token : String
  device_id : String
  user_id : String
  deriving DecidableEq, Repr

/-- Structural model of `url::Url`: scheme, host, optional port, path and the
query viewed as a list of key-value pairs. -/
structure Url where
  scheme : String
  host : String
  port : Option Nat
  path : String
  query : List (String × String)
  deriving DecidableEq, Repr

/-- Wire-level HTTP request (`http::Request<Vec<u8>>`): method, URI and an
abstract body. The dispatcher only reads/writes the URI. -/
structure WireRequest where
  method : String
  uri : Url
  body : String
  deriving DecidableEq, Repr

/-- Embedding of `error::InnerError` (src/error.rs). Payloads of the wrapped foreign errors
are irrelevant to the claims and dropped. The public `Error` is a newtype
around this enum; we identify the two. -/
inductive Error where
  | AuthenticationRequired
  | HttpRequester
  | Uri
  | RumaApi
  | SerdeJson
  | SerdeUrlEncodedSerialize
  deriving DecidableEq, Repr

/-- The `ruma_api::Endpoint` contract as the dispatcher consumes it:
`METADATA.requires_authentication`, the request conversion
(`request.try_into()` in `Client::request`) and the response conversion
(`Incoming::try_from(response)`). -/
structure Endpoint (Req Resp WireResp : Type) where
  requires_authentication : Bool
  try_into : Req → Except Error WireRequest
  from_wire : WireResp → Except Error Resp

/-- Embedding of `ClientData` (src/lib.rs): homeserver URL plus the session store contents.
The transport is passed separately, as dispatch is generic over it. -/
structure ClientData where
  homeserver_url : Url
  session : Option Session
  deriving DecidableEq, Repr

/-- Observable outcome of one `Client::request` dispatch: the returned value,
the session store contents after the call, and the finalized wire request
handed to the transport (`none` when the transport was never invoked). -/
structure DispatchResult (Resp : Type) where
  result : Except Error Resp
  session_after : Option Session
  sent : Option WireRequest

/-- Tail of `Client::request` after authentication handling: invoke the
transport on the finalized wire request, then convert the wire response
(`Incoming::try_from`). -/
def Client.sendRequest {Resp WireResp : Type} {Req : Type} (ep : Endpoint Req Resp WireResp)
    (http_client : WireRequest → Except Error WireResp)
    (client : ClientData) (finalReq : WireRequest) : DispatchResult Resp :=
  match http_client finalReq with
  | Except.error e => { result := Except.error e, session_after := client.session, sent := some finalReq }
  | Except.ok response =>
    match ep.from_wire response with
    | Except.error e => { result := Except.error e, session_after := client.session, sent := some finalReq }
    | Except.ok r => { result := Except.ok r, session_after := client.session, sent := some finalReq }

/-- Embedding of `Client::request` (src/lib.rs lines 348-387): convert the abstract request
to wire form, overlay its path and query onto a copy of the homeserver URL,
inject the access token from the session store when the endpoint requires
authentication (failing with `AuthenticationRequired` when no session is
present, before any transport call), then send. -/
def Client.request {Req Resp WireResp : Type} (ep : Endpoint Req Resp WireResp)
    (http_client : WireRequest → Except Error WireResp)
    (client : ClientData) (req : Req) : DispatchResult Resp :=
  match ep.try_into req with
  | Except.error e => { result := Except.error e, session_after := client.session, sent := none }
  | Except.ok wire =>
    let url : Url := { client.homeserver_url with path := wire.uri.path, query := wire.uri.query }
    if ep.requires_authentication then
      match client.session with
      | some session =>
        let url2 : Url := { url with query := url.query ++ [("access_token", session.access_token)] }
        Client.sendRequest ep http_client client { wire with uri := url2 }
      | none => { result := Except.error Error.AuthenticationRequired, session_after := client.session, sent := none }
    else
      Client.sendRequest ep http_client client { wire with uri := url }

/-- Embedding of `Client::session`: read a copy of the current session. -/
def Client.session (client : ClientData) : Option Session :=
  client.session

/-- Model of `api::r0::session::login::LoginType` (external collaborator, only
`Password` is used by `Client::log_in`). -/
inductive LoginType where
  | Password
  | Token
  deriving DecidableEq, Repr

/-- Model of `api::r0::session::login::Request` with the fields `Client::log_in`
populates (src/lib.rs lines 196-203). `address` and `medium` are set to
`None`; their payload types are irrelevant and modelled as `String`. -/
structure LoginRequest where
  address : Option String
  login_type : LoginType
  medium : Option String
  device_id : Option String
  password : String
  user : String
  deriving DecidableEq, Repr

/-- Model of `api::r0::session::login::Response` restricted to the fields read by
`Client::log_in`: access_token, device_id, user_id. -/
structure LoginResponse where
  access_token : String
  device_id : String
  user_id : String
  deriving DecidableEq, Repr

/-- Model of `api::r0::account::register::RegistrationKind` (external collaborator). -/
inductive RegistrationKind where
  | Guest
  | User
  deriving DecidableEq, Repr

/-- Model of `api::r0::account::register::Request` with the fields the registration
convenience methods populate (src/lib.rs lines 223-231 and 260-268). The
`auth` payload type is abstract and modelled as `String`. -/
structure RegisterRequest where
  auth : Option String
  bind_email : Option Bool
  device_id : Option String
  initial_device_display_name : Option String
  kind : Option RegistrationKind
  password : Option String
  username : Option String
  deriving DecidableEq, Repr

/-- Model of `api::r0::account::register::Response` restricted to the fields read by
the registration convenience methods. -/
structure RegisterResponse where
  access_token : String
  device_id : String
  user_id : String
  deriving DecidableEq, Repr

/-- The fixed login request `Client::log_in` builds. -/
def loginRequestOf (user password : String) (device_id : Option String) : LoginRequest :=
  { address := none, login_type := LoginType.Password, medium := none,
    device_id := device_id, password := password, user := user }

/-- The fixed registration request `Client::register_guest` builds. -/
def guestRegisterRequest : RegisterRequest :=
  { auth := none, bind_email := none, device_id := none,
    initial_device_display_name := none, kind := some RegistrationKind.Guest,
    password := none, username := none }

/-- The registration request `Client::register_user` builds. -/
def userRegisterRequest (username : Option String) (password : String) : RegisterRequest :=
  { auth := none, bind_email := none, device_id := none,
    initial_device_display_name := none, kind := some RegistrationKind.User,
    password := some password, username := username }

/-- The `Session` value `Client::log_in` constructs from a login response. -/
def Session.ofLogin (response : LoginResponse) : Session :=
  { access_token := response.access_token, device_id := response.device_id,
    user_id := response.user_id }

/-- The `Session` value the registration methods construct from a register
response. -/
def Session.ofRegister (response : RegisterResponse) : Session :=
  { access_token := response.access_token, device_id := response.device_id,
    user_id := response.user_id }

/-- Embedding of `Client::log_in` (src/lib.rs lines 187-214): dispatch the fixed login
request; on success build a `Session` from the response, store it
(`*self.0.session.lock().unwrap() = Some(session.clone())`) and return it; on
failure propagate the error. Returns the result together with the client
state after the call. -/
def Client.log_in {WireResp : Type} (ep : Endpoint LoginRequest LoginResponse WireResp)
    (http_client : WireRequest → Except Error WireResp) (client : ClientData)
    (user password : String) (device_id : Option String) :
    Except Error Session × ClientData :=
  let d := Client.request ep http_client client (loginRequestOf user password device_id)
  match d.result with
  | Except.error e => (Except.error e, { client with session := d.session_after })
  | Except.ok response =>
    let session := Session.ofLogin response
    (Except.ok session, { client with session := some session })

/-- Embedding of `Client::register_guest` (src/lib.rs lines 219-242). -/
def Client.register_guest {WireResp : Type} (ep : Endpoint RegisterRequest RegisterResponse WireResp)
    (http_client : WireRequest → Except Error WireResp) (client : ClientData) :
    Except Error Session × ClientData :=
  let d := Client.request ep http_client client guestRegisterRequest
  match d.result with
  | Except.error e => (Except.error e, { client with session := d.session_after })
  | Except.ok response =>
    let session := Session.ofRegister response
    (Except.ok session, { client with session := some session })

/-- Embedding of `Client::register_user` (src/lib.rs lines 252-279). -/
def Client.register_user {WireResp : Type} (ep : Endpoint RegisterRequest RegisterResponse WireResp)
    (http_client : WireRequest → Except Error WireResp) (client : ClientData)
    (username : Option String) (password : String) :
    Except Error Session × ClientData :=
  let d := Client.request ep http_client client (userRegisterRequest username password)
  match d.result with
  | Except.error e => (Except.error e, { client with session := d.session_after })
  | Except.ok response =>
    let session := Session.ofRegister response
    (Except.ok session, { client with session := some session })

/-- Model of `api::r0::sync::sync_events::SetPresence` (external collaborator). -/
inductive SetPresence where
  | Offline
  | Online
  | Unavailable
  deriving DecidableEq, Repr

/-- Model of `api::r0::sync::sync_events::Filter` (external collaborator, kept abstract). -/
structure Filter where
  raw : String
  deriving DecidableEq, Repr

/-- Model of `api::r0::sync::sync_events::Request` with the fields `Client::sync`
populates (src/lib.rs lines 327-333). -/
structure SyncRequest where
  filter : Option Filter
  since : Option String
  full_state : Option Bool
  set_presence : Option SetPresence
  timeout : Option Nat
  deriving DecidableEq, Repr

/-- Model of `api::r0::sync::sync_events::IncomingResponse` restricted to the field the
engine reads: the next pagination token. -/
structure SyncResponse where
  next_batch : String
  deriving DecidableEq, Repr

/-- The local `State` enum of `Client::sync` (src/lib.rs lines 297-301). -/
inductive State where
  | InitialSync
  | Since (s : String)
  | Errored
  deriving DecidableEq, Repr

/-- The presence argument computed by `Client::sync` (src/lib.rs lines
304-308): the caller's boolean is inverted into an optional enum. -/
def syncSetPresenceArg (set_presence : Bool) : Option SetPresence :=
  if set_presence then none else some SetPresence.Offline

/-- The initial cursor state of `Client::sync` (src/lib.rs lines 310-313). -/
def syncInitialState : Option String → State
  | some s => State.Since s
  | none => State.InitialSync

/-- The sync request built on each pull (src/lib.rs lines 327-333). -/
def syncRequest (filter : Option Filter) (sp : Option SetPresence)
    (since : Option String) : SyncRequest :=
  { filter := filter, since := since, full_state := none,
    set_presence := sp, timeout := none }

/-- Dispatch-and-transition part of the unfold closure (src/lib.rs lines
326-342): build the sync request with the given `since`, dispatch it through
the given dispatcher, and on success move to `Since(next_batch)`, on failure
emit the error and move to `Errored`. -/
def syncDispatch (dispatch : SyncRequest → Except Error SyncResponse)
    (filter : Option Filter) (sp : Option SetPresence) (since : Option String) :
    Option (Except Error SyncResponse × State) :=
  match dispatch (syncRequest filter sp since) with
  | Except.ok response => some (Except.ok response, State.Since response.next_batch)
  | Except.error e => some (Except.error e, State.Errored)

/-- One pull of the unfold stream (src/lib.rs lines 315-344): `Errored`
produces no item; otherwise the `since` parameter is `none` for
`InitialSync` and the stored token for `Since`, and the dispatch result
drives the produced item and the next state. The dispatcher stands for
`client.request(sync_events::Request \x7b..\x7d)` with a transport double. -/
def syncStep (dispatch : SyncRequest → Except Error SyncResponse)
    (filter : Option Filter) (sp : Option SetPresence) :
    State → Option (Except Error SyncResponse × State)
  | State.Errored => none
  | State.Since s => syncDispatch dispatch filter sp (some s)
  | State.InitialSync => syncDispatch dispatch filter sp none

/-- Embedding of `Client::sync` (src/lib.rs lines 286-345): compute the inverted presence
argument and the initial cursor, and return them together with the per-pull
transition function of the unfold. -/
def Client.sync (dispatch : SyncRequest → Except Error SyncResponse)
    (filter : Option Filter) (since : Option String) (set_presence : Bool) :
    State × (State → Option (Except Error SyncResponse × State)) :=
  (syncInitialState since, syncStep dispatch filter (syncSetPresenceArg set_presence))

/-- Pull the stream `n` times, with a dispatcher double indexed by the call
number (so a test double can answer differently on successive dispatches).
`i` is the index of the next dispatch. Once a pull produces no item the run
stops: the unfold stream is exhausted. Returns the list of produced items. -/
def syncRunFrom (dispatch : Nat → SyncRequest → Except Error SyncResponse)
    (filter : Option Filter) (sp : Option SetPresence) :
    Nat → Nat → State → List (Except Error SyncResponse)
  | 0, _, _ => []
  | n + 1, i, st =>
    match syncStep (dispatch i) filter sp st with
    | none => []
    | some (item, st2) => item :: syncRunFrom dispatch filter sp n (i + 1) st2

/-! Concrete fixtures used by witness theorems. -/

/-- A homeserver base URL fixture. -/
def urlBase : Url :=
  { scheme := "https", host := "example.com", port := some 443, path := "/", query := [] }

/-- An endpoint-produced wire request fixture; its query carries one ordinary
parameter and no access token. -/
def wireA : WireRequest :=
  { method := "GET",
    uri := { scheme := "https", host := "example.com", port := some 443,
             path := "/_matrix/client/r0/sync", query := [("filter", "f")] },
    body := "" }

/-- The session of the spec's login test vector. -/
def sessAbc : Session := { access_token := "abc", device_id := "D1", user_id := "@a:x" }

/-- A client with an empty session store. -/
def clientNone : ClientData := { homeserver_url := urlBase, session := none }

/-- A client whose session store holds `sessAbc`. -/
def clientSess : ClientData := { homeserver_url := urlBase, session := some sessAbc }

/-- A trivial authenticated endpoint double. -/
def epAuthU : Endpoint Unit Unit Unit :=
  { requires_authentication := true,
    try_into := fun _ => Except.ok wireA,
    from_wire := fun _ => Except.ok () }

/-- A trivial unauthenticated endpoint double. -/
def epNoAuthU : Endpoint Unit Unit Unit :=
  { requires_authentication := false,
    try_into := fun _ => Except.ok wireA,
    from_wire := fun _ => Except.ok () }

/-- A transport double that always succeeds. -/
def httpOkU : WireRequest → Except Error Unit := fun _ => Except.ok ()

/-- A transport double that always fails. -/
def httpErrU : WireRequest → Except Error Unit := fun _ => Except.error Error.HttpRequester

/-- The login response of the spec's test vector. -/
def respAbc : LoginResponse := { access_token := "abc", device_id := "D1", user_id := "@a:x" }

/-- The registration response of the spec's test vector. -/
def regRespAbc : RegisterResponse := { access_token := "abc", device_id := "D1", user_id := "@a:x" }

/-- A login endpoint double whose response conversion yields `respAbc`. -/
def epLogin : Endpoint LoginRequest LoginResponse Unit :=
  { requires_authentication := false,
    try_into := fun _ => Except.ok wireA,
    from_wire := fun _ => Except.ok respAbc }

/-- A registration endpoint double whose response conversion yields
`regRespAbc`. -/
def epRegister : Endpoint RegisterRequest RegisterResponse Unit :=
  { requires_authentication := false,
    try_into := fun _ => Except.ok wireA,
    from_wire := fun _ => Except.ok regRespAbc }

/-- A sync dispatch double that always fails. -/
def dSyncErr : SyncRequest → Except Error SyncResponse :=
  fun _ => Except.error Error.HttpRequester

/-- A sync dispatch double that always succeeds with token `t1`. -/
def dSyncOk : SyncRequest → Except Error SyncResponse :=
  fun _ => Except.ok { next_batch := "t1" }

/-! Helper lemmas shared by the claim theorems. -/

/-- The helper `sendRequest` leaves the session store contents unchanged. -/
theorem sendRequest_session_after {Req Resp WireResp : Type} (ep : Endpoint Req Resp WireResp)
    (http_client : WireRequest → Except Error WireResp) (client : ClientData)
    (fr : WireRequest) :
    (Client.sendRequest ep http_client client fr).session_after = client.session := by
  unfold Client.sendRequest
  cases http_client fr with
  | error e => rfl
  | ok response =>
    dsimp only
    cases ep.from_wire response <;> rfl

/-- The helper `sendRequest` hands exactly its finalized wire request to the transport. -/
theorem sendRequest_sent {Req Resp WireResp : Type} (ep : Endpoint Req Resp WireResp)
    (http_client : WireRequest → Except Error WireResp) (client : ClientData)
    (fr : WireRequest) :
    (Client.sendRequest ep http_client client fr).sent = some fr := by
  unfold Client.sendRequest
  cases http_client fr with
  | error e => rfl
  | ok response =>
    dsimp only
    cases ep.from_wire response <;> rfl

/-- The dispatcher `Client.request` never writes the session store. -/
theorem request_session_after {Req Resp WireResp : Type} (ep : Endpoint Req Resp WireResp)
    (http_client : WireRequest → Except Error WireResp) (client : ClientData)
    (req : Req) :
    (Client.request ep http_client client req).session_after = client.session := by
  unfold Client.request
  cases ep.try_into req with
  | error e => rfl
  | ok wire =>
    dsimp only
    cases hb : ep.requires_authentication with
    | false => simp only [hb, Bool.false_eq_true, if_false, sendRequest_session_after]
    | true =>
      simp only [hb, if_true]
      cases hs : client.session with
      | none => simp only [hs]
      | some s => simp only [sendRequest_session_after, hs]

/-- The helper `sendRequest` returns the same value for any two client states sharing the
finalized wire request, except for the echoed session contents. -/
theorem sendRequest_result_indep {Req Resp WireResp : Type} (ep : Endpoint Req Resp WireResp)
    (http_client : WireRequest → Except Error WireResp) (c1 c2 : ClientData)
    (fr : WireRequest) :
    (Client.sendRequest ep http_client c1 fr).result = (Client.sendRequest ep http_client c2 fr).result := by
  unfold Client.sendRequest
  cases http_client fr with
  | error e => rfl
  | ok response =>
    dsimp only
    cases ep.from_wire response <;> rfl

/-- Characterization of `Client.request` when the endpoint conversion fails. -/
theorem request_conv_error {Req Resp WireResp : Type} (ep : Endpoint Req Resp WireResp)
    (http_client : WireRequest → Except Error WireResp) (c : ClientData) (r : Req)
    (e : Error) (hconv : ep.try_into r = Except.error e) :
    Client.request ep http_client c r
      = { result := Except.error e, session_after := c.session, sent := none } := by
  unfold Client.request
  rw [hconv]

/-- Characterization of `Client.request` on an unauthenticated endpoint: the
endpoint's path and query are overlaid onto the homeserver URL and the wire
request is sent unchanged otherwise. -/
theorem request_noauth_eq {Req Resp WireResp : Type} (ep : Endpoint Req Resp WireResp)
    (http_client : WireRequest → Except Error WireResp) (c : ClientData) (r : Req)
    (wire : WireRequest) (hb : ep.requires_authentication = false)
    (hconv : ep.try_into r = Except.ok wire) :
    Client.request ep http_client c r
      = Client.sendRequest ep http_client c
          { wire with uri := { c.homeserver_url with path := wire.uri.path, query := wire.uri.query } } := by
  unfold Client.request
  rw [hconv]
  simp only [hb, Bool.false_eq_true, if_false]

/-- Characterization of `Client.request` on an authenticated endpoint with a
session present: additionally the access token is appended to the query. -/
theorem request_auth_some_eq {Req Resp WireResp : Type} (ep : Endpoint Req Resp WireResp)
    (http_client : WireRequest → Except Error WireResp) (c : ClientData) (r : Req)
    (wire : WireRequest) (s : Session) (hauth : ep.requires_authentication = true)
    (hsess : c.session = some s) (hconv : ep.try_into r = Except.ok wire) :
    Client.request ep http_client c r
      = Client.sendRequest ep http_client c
          { wire with
            uri := { c.homeserver_url with
                     path := wire.uri.path,
                     query := wire.uri.query ++ [("access_token", s.access_token)] } } := by
  unfold Client.request
  rw [hconv]
  simp only [hauth, if_true, hsess]

/-- Characterization of `Client.request` on an authenticated endpoint with an
empty session store. -/
theorem request_auth_none_eq {Req Resp WireResp : Type} (ep : Endpoint Req Resp WireResp)
    (http_client : WireRequest → Except Error WireResp) (c : ClientData) (r : Req)
    (wire : WireRequest) (hauth : ep.requires_authentication = true)
    (hsess : c.session = none) (hconv : ep.try_into r = Except.ok wire) :
    Client.request ep http_client c r
      = { result := Except.error Error.AuthenticationRequired,
          session_after := c.session, sent := none } := by
  unfold Client.request
  rw [hconv]
  simp only [hauth, if_true, hsess]

/-! Claim theorems. -/

/-- C1: for every dispatch of a request whose endpoint metadata has
`requires_authentication` set and whose endpoint conversion succeeds, when the
session store holds no session, dispatch returns the `AuthenticationRequired`
error and the transport capability is never invoked (no wire request is
handed to any transport, and the outcome does not depend on the transport at
all). -/
theorem request_auth_no_session_fails {Req Resp WireResp : Type}
    (ep : Endpoint Req Resp WireResp)
    (h1 h2 : WireRequest → Except Error WireResp) (c : ClientData) (r : Req)
    (wire : WireRequest)
    (hauth : ep.requires_authentication = true) (hsess : c.session = none)
    (hconv : ep.try_into r = Except.ok wire) :
    (Client.request ep h1 c r).result = Except.error Error.AuthenticationRequired
      ∧ (Client.request ep h1 c r).sent = none
      ∧ Client.request ep h1 c r = Client.request ep h2 c r := by
  rw [request_auth_none_eq ep h1 c r wire hauth hsess hconv,
      request_auth_none_eq ep h2 c r wire hauth hsess hconv]
  exact ⟨rfl, rfl, rfl⟩

/-- Witness for C1 at a concrete endpoint, client and two transports. -/
theorem request_auth_no_session_fails_witness :
    epAuthU.requires_authentication = true
      ∧ clientNone.session = none
      ∧ epAuthU.try_into () = Except.ok wireA
      ∧ ((Client.request epAuthU httpOkU clientNone ()).result
            = Except.error Error.AuthenticationRequired
          ∧ (Client.request epAuthU httpOkU clientNone ()).sent = none
          ∧ Client.request epAuthU httpOkU clientNone ()
              = Client.request epAuthU httpErrU clientNone ()) :=
  ⟨rfl, rfl, rfl,
   request_auth_no_session_fails epAuthU httpOkU httpErrU clientNone () wireA rfl rfl rfl⟩

/-- C2: for every dispatch of a request whose endpoint metadata has
`requires_authentication` set, when the session store holds a session, the
finalized outgoing wire request's query contains the pair
`access_token=<stored token>` exactly once, with all query parameters
produced by the endpoint's own conversion preserved in front of it. -/
theorem request_auth_appends_token {Req Resp WireResp : Type}
    (ep : Endpoint Req Resp WireResp)
    (h : WireRequest → Except Error WireResp) (c : ClientData) (r : Req)
    (wire : WireRequest) (s : Session)
    (hauth : ep.requires_authentication = true) (hsess : c.session = some s)
    (hconv : ep.try_into r = Except.ok wire)
    (hkey : wire.uri.query.countP (fun p => p.1 == "access_token") = 0) :
    ∃ fr, (Client.request ep h c r).sent = some fr
      ∧ fr.uri.query = wire.uri.query ++ [("access_token", s.access_token)]
      ∧ fr.uri.query.countP (fun p => p.1 == "access_token") = 1 := by
  refine ⟨{ wire with
            uri := { c.homeserver_url with
                     path := wire.uri.path,
                     query := wire.uri.query ++ [("access_token", s.access_token)] } }, ?_, rfl, ?_⟩
  · rw [request_auth_some_eq ep h c r wire s hauth hsess hconv]
    exact sendRequest_sent ep h c _
  · show (wire.uri.query ++ [("access_token", s.access_token)]).countP
        (fun p => p.1 == "access_token") = 1
    rw [List.countP_append, hkey]
    rfl

/-- Witness for C2 at a concrete endpoint whose own query has one ordinary
parameter and no access token. -/
theorem request_auth_appends_token_witness :
    epAuthU.requires_authentication = true
      ∧ clientSess.session = some sessAbc
      ∧ epAuthU.try_into () = Except.ok wireA
      ∧ wireA.uri.query.countP (fun p => p.1 == "access_token") = 0
      ∧ ∃ fr, (Client.request epAuthU httpOkU clientSess ()).sent = some fr
          ∧ fr.uri.query = wireA.uri.query ++ [("access_token", sessAbc.access_token)]
          ∧ fr.uri.query.countP (fun p => p.1 == "access_token") = 1 :=
  ⟨rfl, rfl, rfl, by decide,
   request_auth_appends_token epAuthU httpOkU clientSess () wireA sessAbc rfl rfl rfl (by decide)⟩

/-- C6: a dispatch through `Client.request` never changes the session store
contents, whatever its outcome: the value `session()` reads afterwards equals
the value read before. -/
theorem request_frame_session {Req Resp WireResp : Type} (ep : Endpoint Req Resp WireResp)
    (http_client : WireRequest → Except Error WireResp) (c : ClientData) (r : Req) :
    (Client.request ep http_client c r).session_after = Client.session c :=
  request_session_after ep http_client c r

/-- C8: a dispatch of a request whose endpoint metadata does not require
authentication never consults the session store: for any two clients with the
same homeserver URL but arbitrary session contents, the result and the wire
request handed to the transport coincide, each store is left unchanged, and
the finalized query is exactly the endpoint's own query (no access token
parameter is added). -/
theorem request_noauth_ignores_session {Req Resp WireResp : Type}
    (ep : Endpoint Req Resp WireResp) (h : WireRequest → Except Error WireResp)
    (r : Req) (c1 c2 : ClientData)
    (hb : ep.requires_authentication = false)
    (hurl : c1.homeserver_url = c2.homeserver_url) :
    (Client.request ep h c1 r).result = (Client.request ep h c2 r).result
      ∧ (Client.request ep h c1 r).sent = (Client.request ep h c2 r).sent
      ∧ (Client.request ep h c1 r).session_after = c1.session
      ∧ (Client.request ep h c2 r).session_after = c2.session
      ∧ (∀ wire fr, ep.try_into r = Except.ok wire →
          (Client.request ep h c1 r).sent = some fr →
          fr.uri.query = wire.uri.query) := by
  cases hconv : ep.try_into r with
  | error e =>
    rw [request_conv_error ep h c1 r e hconv, request_conv_error ep h c2 r e hconv]
    exact ⟨rfl, rfl, rfl, rfl, fun wire fr hc _ => Except.noConfusion hc⟩
  | ok wire =>
    have e1 := request_noauth_eq ep h c1 r wire hb hconv
    have e2 := request_noauth_eq ep h c2 r wire hb hconv
    rw [e1, e2, hurl]
    refine ⟨sendRequest_result_indep ep h c1 c2 _, ?_, sendRequest_session_after ep h c1 _,
            sendRequest_session_after ep h c2 _, ?_⟩
    · rw [sendRequest_sent, sendRequest_sent]
    · intro wire2 fr hc hs
      cases hc
      rw [sendRequest_sent] at hs
      cases hs
      rfl

/-- Witness for C8 at a concrete unauthenticated endpoint and two clients
sharing the homeserver URL, one with an empty store, one holding a session. -/
theorem request_noauth_ignores_session_witness :
    epNoAuthU.requires_authentication = false
      ∧ clientNone.homeserver_url = clientSess.homeserver_url
      ∧ ((Client.request epNoAuthU httpOkU clientNone ()).result
            = (Client.request epNoAuthU httpOkU clientSess ()).result
          ∧ (Client.request epNoAuthU httpOkU clientNone ()).sent
              = (Client.request epNoAuthU httpOkU clientSess ()).sent
          ∧ (Client.request epNoAuthU httpOkU clientNone ()).session_after = clientNone.session
          ∧ (Client.request epNoAuthU httpOkU clientSess ()).session_after = clientSess.session
          ∧ (∀ wire fr, epNoAuthU.try_into () = Except.ok wire →
              (Client.request epNoAuthU httpOkU clientNone ()).sent = some fr →
              fr.uri.query = wire.uri.query)) :=
  ⟨rfl, rfl, request_noauth_ignores_session epNoAuthU httpOkU () clientNone clientSess rfl rfl⟩

/-- C9: whenever a finalized wire request is handed to the transport, its URI
is the configured homeserver base URL with only path and query replaced: the
scheme, host and port are those of the homeserver URL, the path is the
endpoint-produced path, and the query is the endpoint-produced query, with
the access token pair appended exactly when the session supplied it. -/
theorem request_uri_overlay {Req Resp WireResp : Type}
    (ep : Endpoint Req Resp WireResp) (h : WireRequest → Except Error WireResp)
    (c : ClientData) (r : Req) (wire fr : WireRequest)
    (hconv : ep.try_into r = Except.ok wire)
    (hsent : (Client.request ep h c r).sent = some fr) :
    fr.uri.scheme = c.homeserver_url.scheme
      ∧ fr.uri.host = c.homeserver_url.host
      ∧ fr.uri.port = c.homeserver_url.port
      ∧ fr.uri.path = wire.uri.path
      ∧ (fr.uri.query = wire.uri.query
          ∨ ∃ s, c.session = some s
              ∧ fr.uri.query = wire.uri.query ++ [("access_token", s.access_token)]) := by
  cases hb : ep.requires_authentication with
  | false =>
    rw [request_noauth_eq ep h c r wire hb hconv, sendRequest_sent] at hsent
    cases hsent
    exact ⟨rfl, rfl, rfl, rfl, Or.inl rfl⟩
  | true =>
    cases hs : c.session with
    | none =>
      rw [request_auth_none_eq ep h c r wire hb hs hconv] at hsent
      exact Option.noConfusion hsent
    | some s =>
      rw [request_auth_some_eq ep h c r wire s hb hs hconv, sendRequest_sent] at hsent
      cases hsent
      exact ⟨rfl, rfl, rfl, rfl, Or.inr ⟨s, rfl, rfl⟩⟩

/-- Witness for C9 at a concrete authenticated endpoint with a session. -/
theorem request_uri_overlay_witness :
    epAuthU.try_into () = Except.ok wireA
      ∧ (Client.request epAuthU httpOkU clientSess ()).sent
          = some { wireA with
                   uri := { clientSess.homeserver_url with
                            path := wireA.uri.path,
                            query := wireA.uri.query ++ [("access_token", sessAbc.access_token)] } }
      ∧ (let fr := { wireA with
                     uri := { clientSess.homeserver_url with
                              path := wireA.uri.path,
                              query := wireA.uri.query ++ [("access_token", sessAbc.access_token)] } }
         fr.uri.scheme = clientSess.homeserver_url.scheme
           ∧ fr.uri.host = clientSess.homeserver_url.host
           ∧ fr.uri.port = clientSess.homeserver_url.port
           ∧ fr.uri.path = wireA.uri.path
           ∧ (fr.uri.query = wireA.uri.query
               ∨ ∃ s, clientSess.session = some s
                   ∧ fr.uri.query = wireA.uri.query ++ [("access_token", s.access_token)])) :=
  ⟨rfl, rfl, request_uri_overlay epAuthU httpOkU clientSess () wireA _ rfl rfl⟩

/-- C7: every successful `log_in`, `register_guest` or `register_user`
stores the `Session` built from the response's access_token, device_id and
user_id before returning, returns exactly that session, and a subsequent
`session()` read yields it; a failed dispatch leaves the store untouched and
propagates the error. -/
theorem login_register_store_session {WireResp : Type}
    (epL : Endpoint LoginRequest LoginResponse WireResp)
    (epR : Endpoint RegisterRequest RegisterResponse WireResp)
    (h : WireRequest → Except Error WireResp) (c : ClientData)
    (user password : String) (device_id : Option String) (username : Option String) :
    (∀ resp, (Client.request epL h c (loginRequestOf user password device_id)).result = Except.ok resp →
        Client.log_in epL h c user password device_id
            = (Except.ok (Session.ofLogin resp), { c with session := some (Session.ofLogin resp) })
          ∧ Client.session (Client.log_in epL h c user password device_id).2
              = some (Session.ofLogin resp))
      ∧ (∀ e, (Client.request epL h c (loginRequestOf user password device_id)).result = Except.error e →
          Client.log_in epL h c user password device_id = (Except.error e, c))
      ∧ (∀ resp, (Client.request epR h c guestRegisterRequest).result = Except.ok resp →
          Client.register_guest epR h c
              = (Except.ok (Session.ofRegister resp), { c with session := some (Session.ofRegister resp) })
            ∧ Client.session (Client.register_guest epR h c).2 = some (Session.ofRegister resp))
      ∧ (∀ e, (Client.request epR h c guestRegisterRequest).result = Except.error e →
          Client.register_guest epR h c = (Except.error e, c))
      ∧ (∀ resp, (Client.request epR h c (userRegisterRequest username password)).result = Except.ok resp →
          Client.register_user epR h c username password
              = (Except.ok (Session.ofRegister resp), { c with session := some (Session.ofRegister resp) })
            ∧ Client.session (Client.register_user epR h c username password).2
                = some (Session.ofRegister resp))
      ∧ (∀ e, (Client.request epR h c (userRegisterRequest username password)).result = Except.error e →
          Client.register_user epR h c username password = (Except.error e, c)) := by
  refine ⟨?_, ?_, ?_, ?_, ?_, ?_⟩
  · intro resp hres
    unfold Client.log_in
    dsimp only
    rw [hres]
    exact ⟨rfl, rfl⟩
  · intro e hres
    unfold Client.log_in
    dsimp only
    rw [hres, request_session_after]
  · intro resp hres
    unfold Client.register_guest
    dsimp only
    rw [hres]
    exact ⟨rfl, rfl⟩
  · intro e hres
    unfold Client.register_guest
    dsimp only
    rw [hres, request_session_after]
  · intro resp hres
    unfold Client.register_user
    dsimp only
    rw [hres]
    exact ⟨rfl, rfl⟩
  · intro e hres
    unfold Client.register_user
    dsimp only
    rw [hres, request_session_after]

/-- Witness for C7: the spec's login test vector, dispatched through doubles
whose response is `{access_token:"abc", device_id:"D1", user_id:"@a:x"}`. -/
theorem login_register_store_session_witness :
    (Client.request epLogin httpOkU clientNone (loginRequestOf "@a:x" "secret" none)).result
        = Except.ok respAbc
      ∧ (Client.log_in epLogin httpOkU clientNone "@a:x" "secret" none
            = (Except.ok sessAbc, { clientNone with session := some sessAbc })
          ∧ Client.session (Client.log_in epLogin httpOkU clientNone "@a:x" "secret" none).2
              = some sessAbc) :=
  ⟨rfl,
   (login_register_store_session epLogin epRegister httpOkU clientNone
      "@a:x" "secret" none none).1 respAbc rfl⟩

/-- C3: for the sync stream built with no caller-supplied `since` token, when
the dispatch double succeeds twice with responses `r1`, `r2` and then fails
with `e`, three pulls yield exactly `[Ok r1, Ok r2, Err e]` and a fourth pull
yields no further item. -/
theorem sync_two_ok_then_error (r1 r2 : SyncResponse) (e : Error)
    (filter : Option Filter) (sp : Option SetPresence) :
    syncRunFrom (fun i _ => match i with
        | 0 => Except.ok r1
        | 1 => Except.ok r2
        | _ => Except.error e)
      filter sp 3 0 (syncInitialState none)
        = [Except.ok r1, Except.ok r2, Except.error e]
      ∧ syncRunFrom (fun i _ => match i with
        | 0 => Except.ok r1
        | 1 => Except.ok r2
        | _ => Except.error e)
      filter sp 4 0 (syncInitialState none)
        = [Except.ok r1, Except.ok r2, Except.error e] :=
  ⟨rfl, rfl⟩

/-- A failing dispatch always moves the sync cursor to `Errored`. -/
theorem syncDispatch_error_to_errored (d : SyncRequest → Except Error SyncResponse)
    (f : Option Filter) (sp : Option SetPresence) (since : Option String)
    (e : Error) (st2 : State)
    (hd : syncDispatch d f sp since = some (Except.error e, st2)) :
    st2 = State.Errored := by
  unfold syncDispatch at hd
  cases hq : d (syncRequest f sp since) with
  | ok resp =>
    rw [hq] at hd
    cases hd
  | error e2 =>
    rw [hq] at hd
    cases hd
    rfl

/-- C4: the sync stream's `Errored` state is terminal and absorbing: a pull in
`Errored` yields no item for any dispatcher, any pull that emits an error
moves to `Errored`, and any run started in `Errored` emits nothing. -/
theorem sync_errored_absorbing :
    (∀ (d : SyncRequest → Except Error SyncResponse) (f : Option Filter)
        (sp : Option SetPresence), syncStep d f sp State.Errored = none)
      ∧ (∀ (d : SyncRequest → Except Error SyncResponse) f sp st e st2,
          syncStep d f sp st = some (Except.error e, st2) → st2 = State.Errored)
      ∧ (∀ (d : Nat → SyncRequest → Except Error SyncResponse) f sp n i,
          syncRunFrom d f sp n i State.Errored = []) := by
  refine ⟨fun d f sp => rfl, ?_, ?_⟩
  · intro d f sp st e st2 hstep
    cases st with
    | Errored => exact Option.noConfusion hstep
    | InitialSync => exact syncDispatch_error_to_errored d f sp none e st2 hstep
    | Since t => exact syncDispatch_error_to_errored d f sp (some t) e st2 hstep
  · intro d f sp n i
    cases n <;> rfl

/-- Witness for C4 at a concrete always-failing dispatcher. -/
theorem sync_errored_absorbing_witness :
    syncStep dSyncErr none none (State.Since "t")
        = some (Except.error Error.HttpRequester, State.Errored)
      ∧ State.Errored = State.Errored
      ∧ syncStep dSyncErr none none State.Errored = none
      ∧ syncRunFrom (fun _ => dSyncErr) none none 2 0 State.Errored = [] :=
  ⟨rfl,
   sync_errored_absorbing.2.1 dSyncErr none none (State.Since "t")
     Error.HttpRequester State.Errored rfl,
   sync_errored_absorbing.1 dSyncErr none none,
   sync_errored_absorbing.2.2 (fun _ => dSyncErr) none none 2 0⟩

/-- C5: the pagination token is threaded correctly: the initial cursor is
`InitialSync` with no caller token and `Since` with it; a pull in
`InitialSync` dispatches with `since` absent and a pull in `Since t` with
`since = t`; and a successful dispatch makes `Since(next_batch)` the next
cursor while emitting the response. -/
theorem sync_since_threading :
    syncInitialState none = State.InitialSync
      ∧ (∀ t, syncInitialState (some t) = State.Since t)
      ∧ (∀ (d : SyncRequest → Except Error SyncResponse) f sp,
          syncStep d f sp State.InitialSync = syncDispatch d f sp none)
      ∧ (∀ (d : SyncRequest → Except Error SyncResponse) f sp t,
          syncStep d f sp (State.Since t) = syncDispatch d f sp (some t))
      ∧ (∀ (d : SyncRequest → Except Error SyncResponse) f sp since r,
          d (syncRequest f sp since) = Except.ok r →
          syncDispatch d f sp since = some (Except.ok r, State.Since r.next_batch)) := by
  refine ⟨rfl, fun t => rfl, fun d f sp => rfl, fun d f sp t => rfl, ?_⟩
  intro d f sp since r hd
  unfold syncDispatch
  rw [hd]

/-- Witness for C5 at a concrete succeeding dispatcher. -/
theorem sync_since_threading_witness :
    dSyncOk (syncRequest none none none) = Except.ok { next_batch := "t1" }
      ∧ syncDispatch dSyncOk none none none
          = some (Except.ok { next_batch := "t1" }, State.Since "t1") :=
  ⟨rfl,
   sync_since_threading.2.2.2.2 dSyncOk none none none { next_batch := "t1" } rfl⟩

/-- C10: `Client::sync` inverts the caller's presence boolean before any
request is built: with `set_presence = true` every built sync request carries
`set_presence = none` (server default), with `set_presence = false` it
carries `some Offline`; the stream is driven by exactly this inverted
argument. -/
theorem sync_presence_inverted :
    (∀ (d : SyncRequest → Except Error SyncResponse) (f : Option Filter)
        (s : Option String) (b : Bool),
        Client.sync d f s b = (syncInitialState s, syncStep d f (syncSetPresenceArg b)))
      ∧ syncSetPresenceArg true = none
      ∧ syncSetPresenceArg false = some SetPresence.Offline
      ∧ (∀ f s, (syncRequest f (syncSetPresenceArg true) s).set_presence = none)
      ∧ (∀ f s, (syncRequest f (syncSetPresenceArg false) s).set_presence
            = some SetPresence.Offline) :=
  ⟨fun _ _ _ _ => rfl, rfl, rfl, fun _ _ => rfl, fun _ _ => rfl⟩

end RumaClient
